import Mathlib

/-!
Shallow embedding of the request-authorization and request-execution core of
`src/twitchAPI/twitch.py` (class `Twitch`), together with models of the
collaborators it imports from `twitchAPI/helper.py` and `twitchAPI/types.py`
(those two modules are not part of the source tree; where their behaviour is
needed it is modelled from the specification and marked as such).

Python methods that mutate `self` are embedded as explicit state-passing
functions on a `Twitch` record; a method that can raise returns
`Except PyError _`.  Each endpoint method is embedded up to the point where
the HTTP request is handed to the transport: it returns the `Request` value
(method, built URL, headers) that would be issued, or the error raised
before any network call.  An `.error` result therefore means no request was
issued.
-/

namespace TwitchAPI

/-- Modelled from the spec: the `AuthScope` enumeration lives in
`twitchAPI/types.py`, which is not under `src/`.  The spec describes it as an
opaque identifier from a fixed enumeration (`ScopeId`); the members below are
the ones referenced by `src/twitchAPI/twitch.py`.  `name` is Python's
`Enum.name`: the member's identifier. -/
inductive AuthScope where
  | ANALYTICS_READ_EXTENSION
  | ANALYTICS_READ_GAMES
  | BITS_READ
  | CLIPS_EDIT
  | MODERATION_READ
deriving DecidableEq, Repr

def AuthScope.name : AuthScope → String
  | .ANALYTICS_READ_EXTENSION => "ANALYTICS_READ_EXTENSION"
  | .ANALYTICS_READ_GAMES => "ANALYTICS_READ_GAMES"
  | .BITS_READ => "BITS_READ"
  | .CLIPS_EDIT => "CLIPS_EDIT"
  | .MODERATION_READ => "MODERATION_READ"

instance : BEq AuthScope := ⟨fun a b => decide (a = b)⟩

instance : LawfulBEq AuthScope where
  eq_of_beq h := by simpa [BEq.beq] using h
  rfl := by simp [BEq.beq]

/-- Modelled from the spec: the `AuthType` enumeration lives in
`twitchAPI/types.py`, which is not under `src/`.  The spec's `AuthMode` lists
{None, App, User, Either}; `src/twitchAPI/twitch.py` references the members
`NONE`, `APP` and `USER`. -/
inductive AuthType where
  | NONE
  | APP
  | USER
deriving DecidableEq, Repr

/-- Modelled from the spec: the `AnalyticsReportType` enumeration lives in
`twitchAPI/types.py`, not under `src/`.  The source only reads member
`.value` strings when serializing the `type` parameter. -/
inductive AnalyticsReportType where
  | V1
  | V2
deriving DecidableEq, Repr

def AnalyticsReportType.val : AnalyticsReportType → String
  | .V1 => "overview_v1"
  | .V2 => "overview_v2"

/-- The exceptions raised by `src/twitchAPI/twitch.py`:
`UnauthorizedException` and `MissingScopeException` (imported from
`twitchAPI/types.py`), plain `Exception`, and Python's built-in `TypeError`
(raised by the runtime, e.g. for a call missing a required argument). -/
inductive PyError where
  | unauthorizedException (msg : String)
  | missingScopeException (msg : String)
  | exception (msg : String)
  | typeError (msg : String)
deriving DecidableEq, Repr

/-- The fields of the `Twitch` class (`src/twitchAPI/twitch.py` lines 15-23):
app id/secret, the two credentials (token, scope list, has-auth flag).
Python's name-mangled `__app_auth_token` etc. are embedded without the
underscores. -/
structure Twitch where
  app_id : String
  app_secret : String
  app_auth_token : Option String := none
  app_auth_scope : List AuthScope := []
  has_app_auth : Bool := false
  user_auth_token : Option String := none
  user_auth_scope : List AuthScope := []
  has_user_auth : Bool := false
deriving DecidableEq, Repr

/-- Python's f-string rendering of an `Optional[str]`: `None` prints as
`"None"`, a string prints as itself (used in `f'Bearer {token}'`). -/
def pyStr : Option String → String
  | some s => s
  | none => "None"

/-- Embedding of `Twitch.__generate_header` (lines 29-49).  Headers are the
insertion-ordered string-keyed dict.  The `for s in required_scope` loop that
raises on the first scope not contained in the credential's scope list is
embedded with `List.find?`, which yields exactly the first such element. -/
def generate_header (self : Twitch) (auth_type : AuthType)
    (required_scope : List AuthScope) : Except PyError (List (String × String)) :=
  let header := [("Client-ID", self.app_id)]
  match auth_type with
  | .APP =>
    if !self.has_app_auth then
      .error (.unauthorizedException "Require app authentication!")
    else
      match required_scope.find? (fun s => !(self.app_auth_scope.contains s)) with
      | some s => .error (.missingScopeException ("Require app auth scope " ++ s.name))
      | none => .ok (header ++ [("Authorization", "Bearer " ++ pyStr self.app_auth_token)])
  | .USER =>
    if !self.has_user_auth then
      .error (.unauthorizedException "require user authentication!")
    else
      match required_scope.find? (fun s => !(self.user_auth_scope.contains s)) with
      | some s => .error (.missingScopeException ("Require user auth scope " ++ s.name))
      | none => .ok (header ++ [("Authorization", "Bearer " ++ pyStr self.user_auth_token)])
  | .NONE =>
    if self.has_user_auth || self.has_app_auth then
      -- if no required, set one anyway to get better rate limits if possible
      .ok (header ++ [("Authorization", "Bearer " ++
        pyStr (if self.has_user_auth then self.user_auth_token else self.app_auth_token))])
    else
      .ok header

/-- A key of a Python dict used as a URL-parameter mapping.  The mappings in
`src/twitchAPI/twitch.py` are meant to be string-keyed, but
`get_extension_transactions` (line 213) writes the entry `first: first`,
whose key is the integer value of `first`. -/
inductive PyKey where
  | str (s : String)
  | int (n : Int)
deriving DecidableEq, Repr

/-- A value of a URL-parameter mapping: a string, an integer, a list of
strings, or Python's `None`. -/
inductive PyVal where
  | str (s : String)
  | int (n : Int)
  | list (l : List String)
  | pynone
deriving DecidableEq, Repr

def PyVal.isPyNone : PyVal → Bool
  | .pynone => true
  | _ => false

/-- Datetimes are embedded as integer timestamps: `src/twitchAPI/twitch.py`
only compares them (`<`, `>`) and serializes them with `isoformat()`, which
we model as an injective rendering; no claim depends on the text format. -/
abbrev Datetime := Int

def isoformat (d : Datetime) : String := toString d

def pyOptStr : Option String → PyVal
  | some s => .str s
  | none => .pynone

def pyOptDatetime : Option Datetime → PyVal
  | some d => .str (isoformat d)
  | none => .pynone

/-- Modelled from the spec: `TWITCH_API_BASE_URL` is defined in
`twitchAPI/helper.py`, not under `src/`; the concrete text is irrelevant to
every claim. -/
def TWITCH_API_BASE_URL : String := "https://api.twitch.tv/helix/"

/-- Modelled from the spec: `TWITCH_AUTH_BASE_URL` is defined in
`twitchAPI/helper.py`, not under `src/`. -/
def TWITCH_AUTH_BASE_URL : String := "https://id.twitch.tv/"

/-- The result of the URL-builder collaborator, kept symbolic: the base path
together with the processed parameter mapping. -/
structure BuiltUrl where
  base : String
  params : List (PyKey × PyVal)
deriving DecidableEq, Repr

/-- Modelled from the spec: `build_url` is defined in `twitchAPI/helper.py`,
not under `src/`.  Per the spec it takes a base path and a parameter mapping
with options to drop absent (`None`) values (`remove_none`) and to serialize
list-valued parameters as repeated keys (`split_lists`).  The mapping is kept
symbolic; `remove_none` drops entries whose value is `None`, and list
splitting only affects the final query-string text, which is not modelled. -/
def build_url (base : String) (params : List (PyKey × PyVal))
    (remove_none : Bool) (split_lists : Bool) : BuiltUrl :=
  { base := base
    params := if remove_none then params.filter (fun p => !p.2.isPyNone) else params }

inductive HttpMethod where
  | GET
  | POST
deriving DecidableEq, Repr

/-- The HTTP request an endpoint method hands to the transport collaborator
(`requests.get` / `requests.post`): method, built URL, headers and the
optional JSON body. -/
structure Request where
  httpMethod : HttpMethod
  url : BuiltUrl
  headers : List (String × String)
  data : Option (List (String × String)) := none
deriving DecidableEq, Repr

/-- Embedding of `Twitch.__api_get_request` (lines 63-68): build the headers
and hand the GET request to the transport.  The returned `Request` is the
call handed to `requests.get`. -/
def api_get_request (self : Twitch) (url : BuiltUrl) (auth_type : AuthType)
    (required_scope : List AuthScope) : Except PyError Request := do
  let headers ← generate_header self auth_type required_scope
  pure { httpMethod := .GET, url := url, headers := headers }

/-- Embedding of `Twitch.__api_post_request` (lines 51-61). -/
def api_post_request (self : Twitch) (url : BuiltUrl) (auth_type : AuthType)
    (required_scope : List AuthScope)
    (data : Option (List (String × String))) : Except PyError Request := do
  let headers ← generate_header self auth_type required_scope
  pure { httpMethod := .POST, url := url, headers := headers, data := data }

/-- The token-exchange response consumed by `__generate_app_token`: status
code, raw text, and the decoded JSON body (`none` when `result.json()`
raises `ValueError`), with the body kept as a string-keyed record. -/
structure HttpResponse where
  status_code : Int
  text : String
  json : Option (List (String × String))
deriving DecidableEq, Repr

/-- Embedding of `Twitch.__generate_app_token` (lines 70-88) from the point
the response arrives.  On a non-200 status it raises before any mutation;
`self.__app_auth_token` is assigned only when the body is valid JSON and has
an `access_token` field.  An `.error` result leaves `self` unchanged. -/
def generate_app_token (self : Twitch) (result : HttpResponse) :
    Except PyError Twitch :=
  if result.status_code ≠ 200 then
    .error (.exception ("Authentication failed with code " ++
      toString result.status_code ++ " (" ++ result.text ++ ")"))
  else
    match result.json with
    | none => .error (.exception "Authentication response did not have a valid json body")
    | some data =>
      match data.lookup "access_token" with
      | none => .error (.exception "Authentication response did not contain access_token")
      | some tok => .ok { self with app_auth_token := some tok }

/-- Embedding of `Twitch.authenticate_app` (lines 89-92).  The source first
assigns `self.__app_auth_scope = scope`, then runs the token exchange, and
only after a successful exchange sets `self.__has_app_auth = True`.  In
Python an exception propagates but the scope assignment already happened, so
the error case carries the mutated state the caller observes. -/
def authenticate_app (self : Twitch) (scope : List AuthScope)
    (result : HttpResponse) : Except (PyError × Twitch) Twitch :=
  let s1 := { self with app_auth_scope := scope }
  match generate_app_token s1 result with
  | .error e => .error (e, s1)
  | .ok s2 => .ok { s2 with has_app_auth := true }

/-- Embedding of `Twitch.set_user_authentication` (lines 94-97): straight-line
assignment of token, scope and flag with no failure point. -/
def set_user_authentication (self : Twitch) (token : String)
    (scope : List AuthScope) : Twitch :=
  { self with user_auth_token := some token, user_auth_scope := scope,
              has_user_auth := true }

/-- Embedding of `Twitch.get_webhook_subscriptions` (lines 105-110).  The
source builds the URL and then calls `self.__api_get_request(url,
AuthType.APP)` without the required positional argument `required_scope`
(which has no default), so the Python runtime raises `TypeError` at the call
site, before `__api_get_request`'s body — and hence any HTTP request — can
run. -/
def get_webhook_subscriptions (self : Twitch) (first : Option String)
    (after : Option String) : Except PyError Request :=
  let _url := build_url (TWITCH_API_BASE_URL ++ "webhooks/subscriptions")
    [(.str "first", pyOptStr first), (.str "after", pyOptStr after)] true false
  .error (.typeError
    "__api_get_request() missing 1 required positional argument: required_scope")

/-- Embedding of `Twitch.get_extension_analytics` (lines 125-153) up to the
GET request. -/
def get_extension_analytics (self : Twitch) (after : Option String)
    (extension_id : Option String) (first : Int) (ended_at : Option Datetime)
    (started_at : Option Datetime) (report_type : Option AnalyticsReportType) :
    Except PyError Request :=
  let rest : Except PyError Request :=
    if first > 100 || first < 1 then
      .error (.exception "first must be between 1 and 100")
    else
      let url_params : List (PyKey × PyVal) := [
        (.str "after", pyOptStr after),
        (.str "ended_at", pyOptDatetime ended_at),
        (.str "extension_id", pyOptStr extension_id),
        (.str "first", .int first),
        (.str "started_at", pyOptDatetime started_at),
        (.str "type", match report_type with | some t => .str t.val | none => .pynone)]
      let url := build_url (TWITCH_API_BASE_URL ++ "analytics/extensions")
        url_params true false
      api_get_request self url .USER [AuthScope.ANALYTICS_READ_EXTENSION]
  if ended_at.isSome || started_at.isSome then
    if ended_at.isNone || started_at.isNone then
      .error (.exception "you must specify both ended_at and started_at")
    else if started_at.getD 0 > ended_at.getD 0 then
      .error (.exception "started_at must be before ended_at")
    else rest
  else rest

/-- Embedding of `Twitch.get_game_analytics` (lines 155-182) up to the GET
request. -/
def get_game_analytics (self : Twitch) (after : Option String) (first : Int)
    (game_id : Option String) (ended_at : Option Datetime)
    (started_at : Option Datetime) (report_type : Option AnalyticsReportType) :
    Except PyError Request :=
  let rest : Except PyError Request :=
    if first > 100 || first < 1 then
      .error (.exception "first must be between 1 and 100")
    else
      let url_params : List (PyKey × PyVal) := [
        (.str "after", pyOptStr after),
        (.str "ended_at", pyOptDatetime ended_at),
        (.str "first", .int first),
        (.str "game_id", pyOptStr game_id),
        (.str "started_at", pyOptDatetime started_at),
        (.str "type", match report_type with | some t => .str t.val | none => .pynone)]
      let url := build_url (TWITCH_API_BASE_URL ++ "analytics/games")
        url_params true false
      api_get_request self url .USER [AuthScope.ANALYTICS_READ_GAMES]
  if ended_at.isSome || started_at.isSome then
    if ended_at.isNone || started_at.isNone then
      .error (.exception "you must specify both ended_at and started_at")
    else if ended_at.getD 0 < started_at.getD 0 then
      .error (.exception "ended_at must be after started_at")
    else rest
  else rest

/-- Embedding of `Twitch.get_extension_transactions` (lines 202-218) up to
the GET request.  Line 213 of the source writes the dict entry
`first: first`: the key is the integer value of the variable `first`, not
the string literal `'first'`. -/
def get_extension_transactions (self : Twitch) (extension_id : String)
    (transaction_id : Option String) (after : Option String) (first : Int) :
    Except PyError Request :=
  if first > 100 || first < 1 then
    .error (.exception "first must be between 1 and 100")
  else
    let url_param : List (PyKey × PyVal) := [
      (.str "extension_id", .str extension_id),
      (.str "id", pyOptStr transaction_id),
      (.str "after", pyOptStr after),
      (.int first, .int first)]
    let url := build_url (TWITCH_API_BASE_URL ++ "extensions/transactions")
      url_param true false
    api_get_request self url .APP []

/-- Python's `list.count` takes exactly one positional argument (the element
to count); `src/twitchAPI/twitch.py` lines 268 and 282 call `code.count()`
with no argument, which the Python runtime rejects with `TypeError` before
any comparison happens. -/
def list_count_noarg (l : List String) : Except PyError Int :=
  .error (.typeError "count() takes exactly one argument (0 given)")

/-- Embedding of `Twitch.get_code_status` (lines 265-277) up to the GET
request.  The guard `code.count() > 20 or code.count() < 1` evaluates
`code.count()` left to right; Python's short-circuit `or` reaches the second
call only when the first comparison is false. -/
def get_code_status (self : Twitch) (code : List String) (user_id : Int) :
    Except PyError Request := do
  let n ← list_count_noarg code
  if n > 20 then
    throw (.exception "only between 1 and 20 codes are allowed")
  else
    let m ← list_count_noarg code
    if m < 1 then
      throw (.exception "only between 1 and 20 codes are allowed")
    else
      let param : List (PyKey × PyVal) := [
        (.str "code", .list code),
        (.str "user_id", .int user_id)]
      let url := build_url (TWITCH_API_BASE_URL ++ "entitlements/codes")
        param false true
      api_get_request self url .APP []

/-- Embedding of `Twitch.redeem_code` (lines 279-291) up to the POST
request; its guard has the same shape as `get_code_status`'s. -/
def redeem_code (self : Twitch) (code : List String) (user_id : Int) :
    Except PyError Request := do
  let n ← list_count_noarg code
  if n > 20 then
    throw (.exception "only between 1 and 20 codes are allowed")
  else
    let m ← list_count_noarg code
    if m < 1 then
      throw (.exception "only between 1 and 20 codes are allowed")
    else
      let param : List (PyKey × PyVal) := [
        (.str "code", .list code),
        (.str "user_id", .int user_id)]
      let url := build_url (TWITCH_API_BASE_URL ++ "entitlements/code")
        param false true
      api_post_request self url .APP [] none

/-- Modelled from the spec: the `CodeStatus` enumeration lives in
`twitchAPI/types.py`, not under `src/`.  The spec only requires a designated
fallback constant for unknown values; `src/twitchAPI/twitch.py` references
`CodeStatus.UNKNOWN_VALUE` as that fallback. -/
inductive CodeStatus where
  | SUCCESSFULLY_REDEEMED
  | ALREADY_CLAIMED
  | EXPIRED
  | NOT_FOUND
  | INACTIVE
  | UNUSED
  | INCORRECT_FORMAT
  | INTERNAL_ERROR
  | UNKNOWN_VALUE
deriving DecidableEq, Repr

/-- The enumeration's defined string mapping for `CodeStatus`: member name
to constant. -/
def CodeStatus.fromStr : String → Option CodeStatus
  | "SUCCESSFULLY_REDEEMED" => some .SUCCESSFULLY_REDEEMED
  | "ALREADY_CLAIMED" => some .ALREADY_CLAIMED
  | "EXPIRED" => some .EXPIRED
  | "NOT_FOUND" => some .NOT_FOUND
  | "INACTIVE" => some .INACTIVE
  | "UNUSED" => some .UNUSED
  | "INCORRECT_FORMAT" => some .INCORRECT_FORMAT
  | "INTERNAL_ERROR" => some .INTERNAL_ERROR
  | _ => none

/-- A decoded JSON value whose leaves may already hold an enumerated
constant of type `E` (the output of the enum normalizer), over the
record / list-of-records shapes the normalizer traverses. -/
inductive JVal (E : Type) where
  | str (s : String)
  | enum (e : E)
  | obj (fields : List (String × JVal E))
  | arr (items : List (JVal E))
  | null

mutual

/-- Modelled from the spec: `fields_to_enum` is defined in
`twitchAPI/helper.py`, which is not under `src/`.  Spec section 4.5
(`toEnum(body, fields, enumType, fallback)`): for each named field, replace
its string value with the matching enumerated constant per the enumeration's
defined string mapping (`parse`), or with `fallback` if no constant matches;
it must not fail on unknown values, and it operates uniformly on arbitrarily
nested record / list-of-records shapes. -/
def fields_to_enum {E : Type} (parse : String → Option E) (fallback : E)
    (names : List String) : JVal E → JVal E
  | .str s => .str s
  | .enum e => .enum e
  | .null => .null
  | .arr items => .arr (fieldsToEnumArr parse fallback names items)
  | .obj fields => .obj (fieldsToEnumObj parse fallback names fields)

/-- The normalizer mapped over the elements of a JSON array. -/
def fieldsToEnumArr {E : Type} (parse : String → Option E) (fallback : E)
    (names : List String) : List (JVal E) → List (JVal E)
  | [] => []
  | v :: vs =>
    fields_to_enum parse fallback names v :: fieldsToEnumArr parse fallback names vs

/-- The normalizer mapped over the fields of a JSON record: a named field
holding a string is replaced by the matching constant or the fallback; every
other value is traversed recursively. -/
def fieldsToEnumObj {E : Type} (parse : String → Option E) (fallback : E)
    (names : List String) : List (String × JVal E) → List (String × JVal E)
  | [] => []
  | (k, v) :: kvs =>
    (k,
      if names.contains k then
        match v with
        | .str s => .enum ((parse s).getD fallback)
        | w => fields_to_enum parse fallback names w
      else fields_to_enum parse fallback names v) ::
    fieldsToEnumObj parse fallback names kvs

end

/-! ## Helper lemmas -/

/-- On a list all of whose elements are granted, the "first scope not
granted" search of `__generate_header`'s loop finds nothing. -/
theorem find?_not_mem_eq_none (granted l : List AuthScope)
    (h : ∀ x ∈ l, x ∈ granted) :
    l.find? (fun x => !decide (x ∈ granted)) = none := by
  induction l with
  | nil => rfl
  | cons x xs ih =>
    have hx : x ∈ granted := h x (List.mem_cons_self x xs)
    simp only [List.find?_cons, hx, decide_True, Bool.not_true]
    exact ih (fun y hy => h y (List.mem_cons_of_mem x hy))

/-- A non-granted scope at the head of the remaining required list is what
the "first scope not granted" search returns. -/
theorem find?_not_mem_cons (granted l2 : List AuthScope) (s : AuthScope)
    (h2 : s ∉ granted) :
    (s :: l2).find? (fun x => !decide (x ∈ granted)) = some s := by
  simp [List.find?_cons, h2]

/-! ## Claims -/

/-- C1.  `__generate_header` in mode App: with the app credential absent it
raises `UnauthorizedException`; with the credential present and the required
scopes of the form `l1 ++ s :: l2` where every scope of `l1` is granted and
`s` is not (i.e. `s` is the first unsatisfied required scope), it raises
`MissingScopeException` naming `s`; with every required scope granted it
returns the `Client-ID` header plus `Authorization: Bearer <app token>`.
Mode User behaves symmetrically on the user credential. -/
theorem C1_generate_header_modes (self : Twitch) (R l1 l2 : List AuthScope)
    (s : AuthScope) :
    (self.has_app_auth = false →
      generate_header self .APP R =
        .error (.unauthorizedException "Require app authentication!")) ∧
    (self.has_app_auth = true → R = l1 ++ s :: l2 →
      (∀ x ∈ l1, x ∈ self.app_auth_scope) → s ∉ self.app_auth_scope →
      generate_header self .APP R =
        .error (.missingScopeException ("Require app auth scope " ++ s.name))) ∧
    (self.has_app_auth = true → (∀ x ∈ R, x ∈ self.app_auth_scope) →
      generate_header self .APP R =
        .ok [("Client-ID", self.app_id),
             ("Authorization", "Bearer " ++ pyStr self.app_auth_token)]) ∧
    (self.has_user_auth = false →
      generate_header self .USER R =
        .error (.unauthorizedException "require user authentication!")) ∧
    (self.has_user_auth = true → R = l1 ++ s :: l2 →
      (∀ x ∈ l1, x ∈ self.user_auth_scope) → s ∉ self.user_auth_scope →
      generate_header self .USER R =
        .error (.missingScopeException ("Require user auth scope " ++ s.name))) ∧
    (self.has_user_auth = true → (∀ x ∈ R, x ∈ self.user_auth_scope) →
      generate_header self .USER R =
        .ok [("Client-ID", self.app_id),
             ("Authorization", "Bearer " ++ pyStr self.user_auth_token)]) := by
  refine ⟨fun h => ?_, fun h hR h1 h2 => ?_, fun h hsub => ?_,
          fun h => ?_, fun h hR h1 h2 => ?_, fun h hsub => ?_⟩
  · simp [generate_header, h]
  · subst hR
    simp [generate_header, h, find?_not_mem_eq_none self.app_auth_scope l1 h1,
          find?_not_mem_cons self.app_auth_scope l2 s h2]
  · simp [generate_header, h, find?_not_mem_eq_none self.app_auth_scope R hsub]
  · simp [generate_header, h]
  · subst hR
    simp [generate_header, h, find?_not_mem_eq_none self.user_auth_scope l1 h1,
          find?_not_mem_cons self.user_auth_scope l2 s h2]
  · simp [generate_header, h, find?_not_mem_eq_none self.user_auth_scope R hsub]

/-- A client state whose app credential is present with granted scope
`BITS_READ`, and whose user credential is present with granted scope
`MODERATION_READ`. -/
def stBoth : Twitch :=
  { app_id := "cid", app_secret := "sec",
    app_auth_token := some "atok", app_auth_scope := [.BITS_READ],
    has_app_auth := true,
    user_auth_token := some "utok", user_auth_scope := [.MODERATION_READ],
    has_user_auth := true }

/-- A client state with no credential present. -/
def stFresh : Twitch := { app_id := "cid", app_secret := "sec" }

/-- Witness for C1: each clause applied at a concrete state. -/
theorem C1_witness :
    generate_header stFresh .APP [] =
      .error (.unauthorizedException "Require app authentication!") ∧
    generate_header stBoth .APP [AuthScope.CLIPS_EDIT] =
      .error (.missingScopeException "Require app auth scope CLIPS_EDIT") ∧
    generate_header stBoth .APP [AuthScope.BITS_READ] =
      .ok [("Client-ID", "cid"), ("Authorization", "Bearer atok")] ∧
    generate_header stFresh .USER [] =
      .error (.unauthorizedException "require user authentication!") ∧
    generate_header stBoth .USER [AuthScope.CLIPS_EDIT] =
      .error (.missingScopeException "Require user auth scope CLIPS_EDIT") ∧
    generate_header stBoth .USER [AuthScope.MODERATION_READ] =
      .ok [("Client-ID", "cid"), ("Authorization", "Bearer utok")] := by
  refine ⟨(C1_generate_header_modes stFresh [] [] [] .BITS_READ).1 rfl,
    (C1_generate_header_modes stBoth [.CLIPS_EDIT] [] [] .CLIPS_EDIT).2.1
      rfl rfl (by decide) (by decide),
    (C1_generate_header_modes stBoth [.BITS_READ] [] [] .BITS_READ).2.2.1
      rfl (by decide),
    (C1_generate_header_modes stFresh [] [] [] .BITS_READ).2.2.2.1 rfl,
    (C1_generate_header_modes stBoth [.CLIPS_EDIT] [] [] .CLIPS_EDIT).2.2.2.2.1
      rfl rfl (by decide) (by decide),
    (C1_generate_header_modes stBoth [.MODERATION_READ] [] [] .MODERATION_READ).2.2.2.2.2
      rfl (by decide)⟩

/-- In a header dict of the shape `__generate_header` returns with a bearer
token, the `Authorization` value is that bearer string. -/
theorem auth_val_of_mem_pair (cid b v : String)
    (hv : ("Authorization", v) ∈ [("Client-ID", cid), ("Authorization", b)]) :
    v = b := by
  rcases List.mem_cons.mp hv with h | h
  · exact absurd (show ("Authorization" : String) = "Client-ID" from
      congrArg Prod.fst h) (by decide)
  · exact congrArg Prod.snd (List.mem_singleton.mp h)

/-- A header dict holding only the `Client-ID` entry has no `Authorization`
entry. -/
theorem no_auth_mem_single (cid v : String)
    (hv : ("Authorization", v) ∈ [("Client-ID", cid)]) : False :=
  absurd (show ("Authorization" : String) = "Client-ID" from
    congrArg Prod.fst (List.mem_singleton.mp hv)) (by decide)

/-- A client state whose user credential is present with an empty granted
scope list and no app credential. -/
def stUserEmpty : Twitch :=
  { app_id := "cid", app_secret := "sec",
    user_auth_token := some "utok", user_auth_scope := [],
    has_user_auth := true }

/-- C2, counterexample.  In mode `NONE` with required scope `{BITS_READ}`
and only a user credential present whose granted scope set is empty,
`__generate_header` succeeds and emits `Authorization: Bearer utok` — built
from the user credential — even though no credential in the store grants
`BITS_READ`: the success carries an Authorization header from a credential
whose granted-scope set does not superset the required set. -/
theorem C2_counterexample :
    generate_header stUserEmpty .NONE [AuthScope.BITS_READ] =
      .ok [("Client-ID", "cid"), ("Authorization", "Bearer utok")] ∧
    stUserEmpty.user_auth_token = some "utok" ∧
    stUserEmpty.user_auth_scope = [] ∧
    stUserEmpty.app_auth_scope = [] ∧
    AuthScope.BITS_READ ∉ stUserEmpty.user_auth_scope ∧
    AuthScope.BITS_READ ∉ stUserEmpty.app_auth_scope :=
  ⟨rfl, rfl, rfl, rfl, by decide, by decide⟩

/-- C2, amended: the unchecked Authorization of the `NONE` branch forces the
invariant to exclude mode `NONE` with non-empty required scopes.  For mode
`APP` or `USER` (any required set), and for mode `NONE` with an empty
required set, a successful `__generate_header` whose result carries an
`Authorization` header built it from a credential of the store whose
granted-scope set supersets the required set. -/
theorem C2_amended_scope_superset (self : Twitch) (auth_type : AuthType)
    (R : List AuthScope) (hdrs : List (String × String)) (v : String)
    (hmode : auth_type = .APP ∨ auth_type = .USER ∨ R = [])
    (hok : generate_header self auth_type R = .ok hdrs)
    (hv : ("Authorization", v) ∈ hdrs) :
    ∃ tok scopes,
      ((tok = self.app_auth_token ∧ scopes = self.app_auth_scope) ∨
       (tok = self.user_auth_token ∧ scopes = self.user_auth_scope)) ∧
      v = "Bearer " ++ pyStr tok ∧ ∀ x ∈ R, x ∈ scopes := by
  cases auth_type with
  | APP =>
    cases hha : self.has_app_auth with
    | false => simp [generate_header, hha] at hok
    | true =>
      cases hfind : R.find? (fun x => !decide (x ∈ self.app_auth_scope)) with
      | some s => simp [generate_header, hha, hfind] at hok
      | none =>
        have hsub : ∀ x ∈ R, x ∈ self.app_auth_scope := by
          intro x hx
          have := List.find?_eq_none.mp hfind x hx
          simpa using this
        have hhd : hdrs = [("Client-ID", self.app_id),
            ("Authorization", "Bearer " ++ pyStr self.app_auth_token)] := by
          simp [generate_header, hha, hfind] at hok
          exact hok.symm
        subst hhd
        exact ⟨self.app_auth_token, self.app_auth_scope, Or.inl ⟨rfl, rfl⟩,
          auth_val_of_mem_pair _ _ _ hv, hsub⟩
  | USER =>
    cases hhu : self.has_user_auth with
    | false => simp [generate_header, hhu] at hok
    | true =>
      cases hfind : R.find? (fun x => !decide (x ∈ self.user_auth_scope)) with
      | some s => simp [generate_header, hhu, hfind] at hok
      | none =>
        have hsub : ∀ x ∈ R, x ∈ self.user_auth_scope := by
          intro x hx
          have := List.find?_eq_none.mp hfind x hx
          simpa using this
        have hhd : hdrs = [("Client-ID", self.app_id),
            ("Authorization", "Bearer " ++ pyStr self.user_auth_token)] := by
          simp [generate_header, hhu, hfind] at hok
          exact hok.symm
        subst hhd
        exact ⟨self.user_auth_token, self.user_auth_scope, Or.inr ⟨rfl, rfl⟩,
          auth_val_of_mem_pair _ _ _ hv, hsub⟩
  | NONE =>
    have hR : R = [] := by
      rcases hmode with h | h | h
      · exact absurd h (by simp)
      · exact absurd h (by simp)
      · exact h
    subst hR
    cases hhu : self.has_user_auth with
    | true =>
      have hhd : hdrs = [("Client-ID", self.app_id),
          ("Authorization", "Bearer " ++ pyStr self.user_auth_token)] := by
        simp [generate_header, hhu] at hok
        exact hok.symm
      subst hhd
      exact ⟨self.user_auth_token, self.user_auth_scope, Or.inr ⟨rfl, rfl⟩,
        auth_val_of_mem_pair _ _ _ hv, by simp⟩
    | false =>
      cases hha : self.has_app_auth with
      | true =>
        have hhd : hdrs = [("Client-ID", self.app_id),
            ("Authorization", "Bearer " ++ pyStr self.app_auth_token)] := by
          simp [generate_header, hhu, hha] at hok
          exact hok.symm
        subst hhd
        exact ⟨self.app_auth_token, self.app_auth_scope, Or.inl ⟨rfl, rfl⟩,
          auth_val_of_mem_pair _ _ _ hv, by simp⟩
      | false =>
        have hhd : hdrs = [("Client-ID", self.app_id)] := by
          simp [generate_header, hhu, hha] at hok
          exact hok.symm
        subst hhd
        exact absurd hv (fun h => no_auth_mem_single _ _ h)

/-- Witness for C2 (amended): applied in mode `APP` at a state granting the
single required scope. -/
theorem C2_witness :
    ∃ tok scopes,
      ((tok = stBoth.app_auth_token ∧ scopes = stBoth.app_auth_scope) ∨
       (tok = stBoth.user_auth_token ∧ scopes = stBoth.user_auth_scope)) ∧
      "Bearer atok" = "Bearer " ++ pyStr tok ∧
      ∀ x ∈ [AuthScope.BITS_READ], x ∈ scopes :=
  C2_amended_scope_superset stBoth .APP [AuthScope.BITS_READ]
    [("Client-ID", "cid"), ("Authorization", "Bearer atok")] "Bearer atok"
    (Or.inl rfl) rfl (by simp)

/-- A client state whose app credential is present (no required scopes
granted) and whose user credential is absent. -/
def stAppOnly : Twitch :=
  { app_id := "cid", app_secret := "sec",
    app_auth_token := some "atok", app_auth_scope := [],
    has_app_auth := true }

/-- C3, counterexample.  With a user credential present, `__generate_header`
in mode `NONE` succeeds but its result does contain an `Authorization`
header (lines 45-48 attach one "to get better rate limits" whenever either
credential is present), refuting "its result contains no Authorization
header" for every credential-store state. -/
theorem C3_counterexample :
    generate_header stUserEmpty .NONE [] =
      .ok [("Client-ID", "cid"), ("Authorization", "Bearer utok")] ∧
    ("Authorization", "Bearer utok") ∈
      [("Client-ID", "cid"), ("Authorization", "Bearer utok")] :=
  ⟨rfl, by simp⟩

/-- C3, amended.  Mode `NONE` always succeeds, for every credential-store
state and every required-scope list (the required scopes are ignored).  The
result contains no Authorization header only when neither credential is
present; when a credential is present, an `Authorization: Bearer` header is
attached from the user credential if present, else from the app credential. -/
theorem C3_amended_none_mode (self : Twitch) (R : List AuthScope) :
    (self.has_user_auth = false → self.has_app_auth = false →
      generate_header self .NONE R = .ok [("Client-ID", self.app_id)]) ∧
    (self.has_user_auth = true →
      generate_header self .NONE R =
        .ok [("Client-ID", self.app_id),
             ("Authorization", "Bearer " ++ pyStr self.user_auth_token)]) ∧
    (self.has_user_auth = false → self.has_app_auth = true →
      generate_header self .NONE R =
        .ok [("Client-ID", self.app_id),
             ("Authorization", "Bearer " ++ pyStr self.app_auth_token)]) := by
  refine ⟨fun hu ha => ?_, fun hu => ?_, fun hu ha => ?_⟩
  · simp [generate_header, hu, ha]
  · simp [generate_header, hu]
  · simp [generate_header, hu, ha]

/-- Witness for C3 (amended): the three clauses applied at concrete
states. -/
theorem C3_witness :
    generate_header stFresh .NONE [] = .ok [("Client-ID", "cid")] ∧
    generate_header stUserEmpty .NONE [] =
      .ok [("Client-ID", "cid"), ("Authorization", "Bearer utok")] ∧
    generate_header stAppOnly .NONE [] =
      .ok [("Client-ID", "cid"), ("Authorization", "Bearer atok")] :=
  ⟨(C3_amended_none_mode stFresh []).1 rfl rfl,
   (C3_amended_none_mode stUserEmpty []).2.1 rfl,
   (C3_amended_none_mode stAppOnly []).2.2 rfl rfl⟩

/-- A client state whose app credential was previously established:
token `oldtok` with granted scope `BITS_READ`, marked present. -/
def stPrevAuth : Twitch :=
  { app_id := "cid", app_secret := "sec",
    app_auth_token := some "oldtok", app_auth_scope := [.BITS_READ],
    has_app_auth := true }

/-- A non-200 token-exchange response. -/
def resp500 : HttpResponse := { status_code := 500, text := "err", json := none }

/-- C4, counterexample.  From a starting state whose app credential was
already present, a non-200 response to `authenticate_app` raises, yet the
caller-observable state still has the app credential marked present — and
its scope list was already replaced by the new request's scopes while the
token is still the old one.  So "leaves the CredentialStore's app credential
not marked present" fails for this starting state. -/
theorem C4_counterexample :
    authenticate_app stPrevAuth [AuthScope.CLIPS_EDIT] resp500 =
      .error (.exception "Authentication failed with code 500 (err)",
        { app_id := "cid", app_secret := "sec",
          app_auth_token := some "oldtok",
          app_auth_scope := [AuthScope.CLIPS_EDIT],
          has_app_auth := true }) ∧
    stPrevAuth.has_app_auth = true :=
  ⟨rfl, rfl⟩

/-- C4, amended.  On a non-200 response `authenticate_app` fails with the
authentication-failure error carrying the status code and body, and the
caller-observable state has the presence flag and the stored token unchanged
from before the call (in particular, if the app credential was absent it
stays absent, and no state arises in which the new token exists but is not
marked usable); only the requested scope list has been recorded. -/
theorem C4_amended_non200 (self : Twitch) (scope : List AuthScope)
    (resp : HttpResponse) (hstatus : resp.status_code ≠ 200) :
    ∃ st, authenticate_app self scope resp =
        .error (.exception ("Authentication failed with code " ++
          toString resp.status_code ++ " (" ++ resp.text ++ ")"), st) ∧
      st.has_app_auth = self.has_app_auth ∧
      st.app_auth_token = self.app_auth_token ∧
      st.app_auth_scope = scope := by
  refine ⟨{ self with app_auth_scope := scope }, ?_, rfl, rfl, rfl⟩
  simp [authenticate_app, generate_app_token, hstatus]

/-- Witness for C4 (amended): a non-200 response at a fresh state leaves the
app credential absent. -/
theorem C4_witness :
    ∃ st, authenticate_app stFresh [AuthScope.BITS_READ] resp500 =
        .error (.exception ("Authentication failed with code " ++
          toString resp500.status_code ++ " (" ++ resp500.text ++ ")"), st) ∧
      st.has_app_auth = stFresh.has_app_auth ∧
      st.app_auth_token = stFresh.app_auth_token ∧
      st.app_auth_scope = [AuthScope.BITS_READ] :=
  C4_amended_non200 stFresh [AuthScope.BITS_READ] resp500 (by decide)

/-- C5, code bug.  The claim — token and scope set replaced together in one
atomic step, `present` true exactly when both were set together — matches
the spec's stated invariant, but `authenticate_app` assigns
`self.__app_auth_scope = scope` (line 90) before the token exchange.  When
the exchange fails from a previously authenticated state, the observable
state is partially updated: the new scope list with the old token, still
marked present.  This evaluates the embedding at that failing input. -/
theorem C5_partial_update_eval :
    authenticate_app stPrevAuth [AuthScope.CLIPS_EDIT] resp500 =
      .error (.exception "Authentication failed with code 500 (err)",
        { app_id := "cid", app_secret := "sec",
          app_auth_token := some "oldtok",
          app_auth_scope := [AuthScope.CLIPS_EDIT],
          has_app_auth := true }) ∧
    stPrevAuth.app_auth_token = some "oldtok" ∧
    stPrevAuth.app_auth_scope = [AuthScope.BITS_READ] :=
  ⟨rfl, rfl, rfl⟩

/-- C6.  For every client state and argument values, supplying exactly one
of the paired parameters `started_at` / `ended_at` makes
`get_extension_analytics` and `get_game_analytics` fail with the exception
citing the pairing rule.  The embedding constructs the `Request` handed to
the transport only after validation passes, so an `.error` result means
zero network calls were made. -/
theorem C6_date_pairing (self : Twitch) (after extension_id game_id : Option String)
    (first : Int) (d : Datetime) (rt : Option AnalyticsReportType) :
    get_extension_analytics self after extension_id first (some d) none rt =
      .error (.exception "you must specify both ended_at and started_at") ∧
    get_extension_analytics self after extension_id first none (some d) rt =
      .error (.exception "you must specify both ended_at and started_at") ∧
    get_game_analytics self after first game_id (some d) none rt =
      .error (.exception "you must specify both ended_at and started_at") ∧
    get_game_analytics self after first game_id none (some d) rt =
      .error (.exception "you must specify both ended_at and started_at") :=
  ⟨rfl, rfl, rfl, rfl⟩

/-- C8, code bug (the spec flags it as a latent defect).  The parameter
mapping `get_extension_transactions` hands to the URL builder keys the
pagination count by the integer value of `first` (the dict entry is written
`first: first` at line 213) rather than by the string literal `'first'`:
evaluated at `extension_id = "abc"`, `first = 20`, the mapping contains the
entry keyed `20` and no entry keyed `"first"`. -/
theorem C8_int_key_eval :
    get_extension_transactions stAppOnly "abc" none none 20 =
      .ok { httpMethod := .GET,
            url := { base := TWITCH_API_BASE_URL ++ "extensions/transactions",
                     params := [(.str "extension_id", .str "abc"),
                                (.int 20, .int 20)] },
            headers := [("Client-ID", "cid"),
                        ("Authorization", "Bearer atok")] } :=
  rfl

/-- C9, code bug (the spec flags it as a likely defect).  The size guard of
`get_code_status` and `redeem_code` is `code.count() > 20 or
code.count() < 1`, but Python's `list.count` takes exactly one argument, so
the guard itself raises `TypeError` on every call — here evaluated at the
valid one-element code list the claim says must proceed to the request. -/
theorem C9_count_noarg_eval :
    get_code_status stAppOnly ["ABC"] 123 =
      .error (.typeError "count() takes exactly one argument (0 given)") ∧
    redeem_code stAppOnly ["ABC"] 123 =
      .error (.typeError "count() takes exactly one argument (0 given)") :=
  ⟨rfl, rfl⟩

/-- C10.  `get_webhook_subscriptions` calls `self.__api_get_request(url,
AuthType.APP)` without the required positional argument `required_scope`,
so for every client state and every argument value it fails with Python's
missing-argument `TypeError` at the call site; the transport is never
reached (the embedding yields the error instead of a `Request`). -/
theorem C10_missing_required_scope (self : Twitch) (first after : Option String) :
    get_webhook_subscriptions self first after =
      .error (.typeError
        "__api_get_request() missing 1 required positional argument: required_scope") :=
  rfl

/-- C7.  `fields_to_enum` (as `get_code_status` / `redeem_code` apply it to
the `status` field) never fails: it is a total function, and for every
record of the decoded body, a named field holding a string that matches no
enumeration constant is replaced by the fallback `F`, while a named field
holding a string that matches a constant is replaced by that constant;
records inside the body are reached through `fields_to_enum` on `obj`. -/
theorem C7_to_enum_never_fails {E : Type} (parse : String → Option E)
    (fallback : E) (names : List String) (kvs : List (String × JVal E))
    (k s : String) (hk : k ∈ names) (hmem : (k, JVal.str s) ∈ kvs) :
    fields_to_enum parse fallback names (JVal.obj kvs) =
      JVal.obj (fieldsToEnumObj parse fallback names kvs) ∧
    (parse s = none →
      (k, JVal.enum fallback) ∈ fieldsToEnumObj parse fallback names kvs) ∧
    (∀ c, parse s = some c →
      (k, JVal.enum c) ∈ fieldsToEnumObj parse fallback names kvs) := by
  have key : (k, JVal.enum ((parse s).getD fallback)) ∈
      fieldsToEnumObj parse fallback names kvs := by
    induction kvs with
    | nil => cases hmem
    | cons head tail ih =>
      obtain ⟨k', v'⟩ := head
      rcases List.mem_cons.mp hmem with h | h
      · injection h with h1 h2
        subst h1
        subst h2
        simp [fieldsToEnumObj, hk]
      · rw [fieldsToEnumObj.eq_def]
        exact List.mem_cons_of_mem _ (ih h)
  refine ⟨rfl, fun h0 => ?_, fun c hc => ?_⟩
  · have hg : (parse s).getD fallback = fallback := by rw [h0]; rfl
    rwa [hg] at key
  · have hg : (parse s).getD fallback = c := by rw [hc]; rfl
    rwa [hg] at key

/-- Witness for C7: for the `status` field with the `CodeStatus` mapping and
fallback `UNKNOWN_VALUE`, the field value `totally-unknown-value` becomes
`UNKNOWN_VALUE` and the recognized value `EXPIRED` becomes `EXPIRED`. -/
theorem C7_witness :
    ("status", JVal.enum CodeStatus.UNKNOWN_VALUE) ∈
      fieldsToEnumObj CodeStatus.fromStr CodeStatus.UNKNOWN_VALUE ["status"]
        [("status", JVal.str "totally-unknown-value")] ∧
    ("status", JVal.enum CodeStatus.EXPIRED) ∈
      fieldsToEnumObj CodeStatus.fromStr CodeStatus.UNKNOWN_VALUE ["status"]
        [("status", JVal.str "EXPIRED")] :=
  ⟨(C7_to_enum_never_fails CodeStatus.fromStr CodeStatus.UNKNOWN_VALUE ["status"]
      [("status", JVal.str "totally-unknown-value")] "status"
      "totally-unknown-value" (by simp) (by simp)).2.1 rfl,
   (C7_to_enum_never_fails CodeStatus.fromStr CodeStatus.UNKNOWN_VALUE ["status"]
      [("status", JVal.str "EXPIRED")] "status" "EXPIRED"
      (by simp) (by simp)).2.2 CodeStatus.EXPIRED rfl⟩

end TwitchAPI
